import Mathlib

/-!
Shallow embedding of the wabt text-parser common header
(`src/src/ast-parser.h`, which inlines `common.h`): result and label enums,
the value-type enum, the opcode metadata table generated by
`WABT_FOREACH_OPCODE`, the opcode-info accessors, string-slice duplication,
and alignment resolution.  Functions whose bodies are not part of the header
(the parser entry point, opcode-info initialization, alignment helpers) are
modelled from their declared contracts and the specification.
-/

set_option maxRecDepth 20000

namespace Wabt

/-- `enum WabtResult` (lines 101-104): `WABT_OK`, `WABT_ERROR`. -/
inductive WabtResult where
  | WABT_OK
  | WABT_ERROR
deriving DecidableEq, Repr

/-- `enum WabtLabelType` (lines 109-116): the label kinds pushed while
parsing a function body. -/
inductive WabtLabelType where
  | FUNC
  | BLOCK
  | LOOP
  | IF
  | ELSE
deriving DecidableEq, Repr

/-- `enum WabtType` (lines 178-188): the value-type tags.  `WABT_TYPE____`
is an alias of `WABT_TYPE_VOID` used in the opcode table. -/
inductive WabtType where
  | I32
  | I64
  | F32
  | F64
  | ANYFUNC
  | FUNC
  | VOID
  | ANY
deriving DecidableEq, Repr, Fintype

/-- The integer value each `WabtType` enumerator is assigned in the C enum
(lines 179-187): small negative integers matching the binary format, except
`WABT_TYPE_ANY = 0`. -/
def WabtType.val : WabtType → Int
  | .I32 => -0x01
  | .I64 => -0x02
  | .F32 => -0x03
  | .F64 => -0x04
  | .ANYFUNC => -0x10
  | .FUNC => -0x20
  | .VOID => -0x40
  | .ANY => 0

/-- One row of the `WABT_FOREACH_OPCODE` macro table (lines 227-399):
result type `tr`, parameter types `t1`/`t2`, memory size `m`, opcode byte
`code`, and mnemonic `text`.  The `___` type shorthand is `WABT_TYPE____`,
an alias of `.VOID`. -/
structure OpcodeEntry where
  tr : WabtType
  t1 : WabtType
  t2 : WabtType
  m : Nat
  code : Nat
  text : String
deriving DecidableEq, Repr

/-- Row constructor mirroring the `V(...)` macro argument order. -/
def V (tr t1 t2 : WabtType) (m code : Nat) (text : String) : OpcodeEntry :=
  ⟨tr, t1, t2, m, code, text⟩

/-- The `WABT_FOREACH_OPCODE` table (lines 227-399), one entry per `V` row,
in source order. -/
def WABT_FOREACH_OPCODE : List OpcodeEntry := [
  V .VOID .VOID .VOID 0 0x00 "unreachable",
  V .VOID .VOID .VOID 0 0x01 "nop",
  V .VOID .VOID .VOID 0 0x02 "block",
  V .VOID .VOID .VOID 0 0x03 "loop",
  V .VOID .VOID .VOID 0 0x04 "if",
  V .VOID .VOID .VOID 0 0x05 "else",
  V .VOID .VOID .VOID 0 0x0b "end",
  V .VOID .VOID .VOID 0 0x0c "br",
  V .VOID .VOID .VOID 0 0x0d "br_if",
  V .VOID .VOID .VOID 0 0x0e "br_table",
  V .VOID .VOID .VOID 0 0x0f "return",
  V .VOID .VOID .VOID 0 0x10 "call",
  V .VOID .VOID .VOID 0 0x11 "call_indirect",
  V .VOID .VOID .VOID 0 0x1a "drop",
  V .VOID .VOID .VOID 0 0x1b "select",
  V .VOID .VOID .VOID 0 0x20 "get_local",
  V .VOID .VOID .VOID 0 0x21 "set_local",
  V .VOID .VOID .VOID 0 0x22 "tee_local",
  V .VOID .VOID .VOID 0 0x23 "get_global",
  V .VOID .VOID .VOID 0 0x24 "set_global",
  V .I32 .I32 .VOID 4 0x28 "i32.load",
  V .I64 .I32 .VOID 8 0x29 "i64.load",
  V .F32 .I32 .VOID 4 0x2a "f32.load",
  V .F64 .I32 .VOID 8 0x2b "f64.load",
  V .I32 .I32 .VOID 1 0x2c "i32.load8_s",
  V .I32 .I32 .VOID 1 0x2d "i32.load8_u",
  V .I32 .I32 .VOID 2 0x2e "i32.load16_s",
  V .I32 .I32 .VOID 2 0x2f "i32.load16_u",
  V .I64 .I32 .VOID 1 0x30 "i64.load8_s",
  V .I64 .I32 .VOID 1 0x31 "i64.load8_u",
  V .I64 .I32 .VOID 2 0x32 "i64.load16_s",
  V .I64 .I32 .VOID 2 0x33 "i64.load16_u",
  V .I64 .I32 .VOID 4 0x34 "i64.load32_s",
  V .I64 .I32 .VOID 4 0x35 "i64.load32_u",
  V .VOID .I32 .I32 4 0x36 "i32.store",
  V .VOID .I32 .I64 8 0x37 "i64.store",
  V .VOID .I32 .F32 4 0x38 "f32.store",
  V .VOID .I32 .F64 8 0x39 "f64.store",
  V .VOID .I32 .I32 1 0x3a "i32.store8",
  V .VOID .I32 .I32 2 0x3b "i32.store16",
  V .VOID .I32 .I64 1 0x3c "i64.store8",
  V .VOID .I32 .I64 2 0x3d "i64.store16",
  V .VOID .I32 .I64 4 0x3e "i64.store32",
  V .I32 .VOID .VOID 0 0x3f "current_memory",
  V .I32 .I32 .VOID 0 0x40 "grow_memory",
  V .I32 .VOID .VOID 0 0x41 "i32.const",
  V .I64 .VOID .VOID 0 0x42 "i64.const",
  V .F32 .VOID .VOID 0 0x43 "f32.const",
  V .F64 .VOID .VOID 0 0x44 "f64.const",
  V .I32 .I32 .VOID 0 0x45 "i32.eqz",
  V .I32 .I32 .I32 0 0x46 "i32.eq",
  V .I32 .I32 .I32 0 0x47 "i32.ne",
  V .I32 .I32 .I32 0 0x48 "i32.lt_s",
  V .I32 .I32 .I32 0 0x49 "i32.lt_u",
  V .I32 .I32 .I32 0 0x4a "i32.gt_s",
  V .I32 .I32 .I32 0 0x4b "i32.gt_u",
  V .I32 .I32 .I32 0 0x4c "i32.le_s",
  V .I32 .I32 .I32 0 0x4d "i32.le_u",
  V .I32 .I32 .I32 0 0x4e "i32.ge_s",
  V .I32 .I32 .I32 0 0x4f "i32.ge_u",
  V .I32 .I64 .VOID 0 0x50 "i64.eqz",
  V .I32 .I64 .I64 0 0x51 "i64.eq",
  V .I32 .I64 .I64 0 0x52 "i64.ne",
  V .I32 .I64 .I64 0 0x53 "i64.lt_s",
  V .I32 .I64 .I64 0 0x54 "i64.lt_u",
  V .I32 .I64 .I64 0 0x55 "i64.gt_s",
  V .I32 .I64 .I64 0 0x56 "i64.gt_u",
  V .I32 .I64 .I64 0 0x57 "i64.le_s",
  V .I32 .I64 .I64 0 0x58 "i64.le_u",
  V .I32 .I64 .I64 0 0x59 "i64.ge_s",
  V .I32 .I64 .I64 0 0x5a "i64.ge_u",
  V .I32 .F32 .F32 0 0x5b "f32.eq",
  V .I32 .F32 .F32 0 0x5c "f32.ne",
  V .I32 .F32 .F32 0 0x5d "f32.lt",
  V .I32 .F32 .F32 0 0x5e "f32.gt",
  V .I32 .F32 .F32 0 0x5f "f32.le",
  V .I32 .F32 .F32 0 0x60 "f32.ge",
  V .I32 .F64 .F64 0 0x61 "f64.eq",
  V .I32 .F64 .F64 0 0x62 "f64.ne",
  V .I32 .F64 .F64 0 0x63 "f64.lt",
  V .I32 .F64 .F64 0 0x64 "f64.gt",
  V .I32 .F64 .F64 0 0x65 "f64.le",
  V .I32 .F64 .F64 0 0x66 "f64.ge",
  V .I32 .I32 .VOID 0 0x67 "i32.clz",
  V .I32 .I32 .VOID 0 0x68 "i32.ctz",
  V .I32 .I32 .VOID 0 0x69 "i32.popcnt",
  V .I32 .I32 .I32 0 0x6a "i32.add",
  V .I32 .I32 .I32 0 0x6b "i32.sub",
  V .I32 .I32 .I32 0 0x6c "i32.mul",
  V .I32 .I32 .I32 0 0x6d "i32.div_s",
  V .I32 .I32 .I32 0 0x6e "i32.div_u",
  V .I32 .I32 .I32 0 0x6f "i32.rem_s",
  V .I32 .I32 .I32 0 0x70 "i32.rem_u",
  V .I32 .I32 .I32 0 0x71 "i32.and",
  V .I32 .I32 .I32 0 0x72 "i32.or",
  V .I32 .I32 .I32 0 0x73 "i32.xor",
  V .I32 .I32 .I32 0 0x74 "i32.shl",
  V .I32 .I32 .I32 0 0x75 "i32.shr_s",
  V .I32 .I32 .I32 0 0x76 "i32.shr_u",
  V .I32 .I32 .I32 0 0x77 "i32.rotl",
  V .I32 .I32 .I32 0 0x78 "i32.rotr",
  V .I64 .I64 .I64 0 0x79 "i64.clz",
  V .I64 .I64 .I64 0 0x7a "i64.ctz",
  V .I64 .I64 .I64 0 0x7b "i64.popcnt",
  V .I64 .I64 .I64 0 0x7c "i64.add",
  V .I64 .I64 .I64 0 0x7d "i64.sub",
  V .I64 .I64 .I64 0 0x7e "i64.mul",
  V .I64 .I64 .I64 0 0x7f "i64.div_s",
  V .I64 .I64 .I64 0 0x80 "i64.div_u",
  V .I64 .I64 .I64 0 0x81 "i64.rem_s",
  V .I64 .I64 .I64 0 0x82 "i64.rem_u",
  V .I64 .I64 .I64 0 0x83 "i64.and",
  V .I64 .I64 .I64 0 0x84 "i64.or",
  V .I64 .I64 .I64 0 0x85 "i64.xor",
  V .I64 .I64 .I64 0 0x86 "i64.shl",
  V .I64 .I64 .I64 0 0x87 "i64.shr_s",
  V .I64 .I64 .I64 0 0x88 "i64.shr_u",
  V .I64 .I64 .I64 0 0x89 "i64.rotl",
  V .I64 .I64 .I64 0 0x8a "i64.rotr",
  V .F32 .F32 .F32 0 0x8b "f32.abs",
  V .F32 .F32 .F32 0 0x8c "f32.neg",
  V .F32 .F32 .F32 0 0x8d "f32.ceil",
  V .F32 .F32 .F32 0 0x8e "f32.floor",
  V .F32 .F32 .F32 0 0x8f "f32.trunc",
  V .F32 .F32 .F32 0 0x90 "f32.nearest",
  V .F32 .F32 .F32 0 0x91 "f32.sqrt",
  V .F32 .F32 .F32 0 0x92 "f32.add",
  V .F32 .F32 .F32 0 0x93 "f32.sub",
  V .F32 .F32 .F32 0 0x94 "f32.mul",
  V .F32 .F32 .F32 0 0x95 "f32.div",
  V .F32 .F32 .F32 0 0x96 "f32.min",
  V .F32 .F32 .F32 0 0x97 "f32.max",
  V .F32 .F32 .F32 0 0x98 "f32.copysign",
  V .F64 .F64 .F64 0 0x99 "f64.abs",
  V .F64 .F64 .F64 0 0x9a "f64.neg",
  V .F64 .F64 .F64 0 0x9b "f64.ceil",
  V .F64 .F64 .F64 0 0x9c "f64.floor",
  V .F64 .F64 .F64 0 0x9d "f64.trunc",
  V .F64 .F64 .F64 0 0x9e "f64.nearest",
  V .F64 .F64 .F64 0 0x9f "f64.sqrt",
  V .F64 .F64 .F64 0 0xa0 "f64.add",
  V .F64 .F64 .F64 0 0xa1 "f64.sub",
  V .F64 .F64 .F64 0 0xa2 "f64.mul",
  V .F64 .F64 .F64 0 0xa3 "f64.div",
  V .F64 .F64 .F64 0 0xa4 "f64.min",
  V .F64 .F64 .F64 0 0xa5 "f64.max",
  V .F64 .F64 .F64 0 0xa6 "f64.copysign",
  V .I32 .I64 .VOID 0 0xa7 "i32.wrap/i64",
  V .I32 .F32 .VOID 0 0xa8 "i32.trunc_s/f32",
  V .I32 .F32 .VOID 0 0xa9 "i32.trunc_u/f32",
  V .I32 .F64 .VOID 0 0xaa "i32.trunc_s/f64",
  V .I32 .F64 .VOID 0 0xab "i32.trunc_u/f64",
  V .I64 .I32 .VOID 0 0xac "i64.extend_s/i32",
  V .I64 .I32 .VOID 0 0xad "i64.extend_u/i32",
  V .I64 .F32 .VOID 0 0xae "i64.trunc_s/f32",
  V .I64 .F32 .VOID 0 0xaf "i64.trunc_u/f32",
  V .I64 .F64 .VOID 0 0xb0 "i64.trunc_s/f64",
  V .I64 .F64 .VOID 0 0xb1 "i64.trunc_u/f64",
  V .F32 .I32 .VOID 0 0xb2 "f32.convert_s/i32",
  V .F32 .I32 .VOID 0 0xb3 "f32.convert_u/i32",
  V .F32 .I64 .VOID 0 0xb4 "f32.convert_s/i64",
  V .F32 .I64 .VOID 0 0xb5 "f32.convert_u/i64",
  V .F32 .F64 .VOID 0 0xb6 "f32.demote/f64",
  V .F64 .I32 .VOID 0 0xb7 "f64.convert_s/i32",
  V .F64 .I32 .VOID 0 0xb8 "f64.convert_u/i32",
  V .F64 .I64 .VOID 0 0xb9 "f64.convert_s/i64",
  V .F64 .I64 .VOID 0 0xba "f64.convert_u/i64",
  V .F64 .F32 .VOID 0 0xbb "f64.promote/f32",
  V .I32 .F32 .VOID 0 0xbc "i32.reinterpret/f32",
  V .I64 .F64 .VOID 0 0xbd "i64.reinterpret/f64",
  V .F32 .I32 .VOID 0 0xbe "f32.reinterpret/i32",
  V .F64 .I64 .VOID 0 0xbf "f64.reinterpret/i64"
]

/-- `WABT_NUM_OPCODES` (line 406): the trailing enumerator of
`enum WabtOpcode`, which C assigns the value of the previous enumerator
(the last table row, `0xbf`) plus one. -/
def WABT_NUM_OPCODES : Nat := ((WABT_FOREACH_OPCODE.map OpcodeEntry.code).getLastD 0) + 1

/-- `struct WabtOpcodeInfo` (lines 409-415): the record stored in
`g_wabt_opcode_info`.  The C `const char* name` is `Option String` so the
`NULL` of a zero-initialized slot is `none`; the C `int memory_size` only
ever holds the table's non-negative widths, embedded as `Nat`. -/
structure WabtOpcodeInfo where
  name : Option String
  result_type : WabtType
  param1_type : WabtType
  param2_type : WabtType
  memory_size : Nat
deriving DecidableEq, Repr

/-- A zero-initialized `WabtOpcodeInfo` slot: `name = NULL`, all type tags
`(WabtType)0 = WABT_TYPE_ANY`, `memory_size = 0`. -/
def zeroOpcodeInfo : WabtOpcodeInfo := ⟨none, .ANY, .ANY, .ANY, 0⟩

/-- Modelled from the spec: the body of `wabt_init_opcode_info` that fills
the global array `g_wabt_opcode_info[WABT_NUM_OPCODES]` (declared at lines
506-507) is not under `src/`.  Per the spec (§4.1, §9) the table is built
once from the single declarative `WABT_FOREACH_OPCODE` list and never
mutated: the slot for each listed `code` holds that row's name and types,
and every slot not covered by a row keeps its static zero initialization. -/
def g_wabt_opcode_info (opcode : Nat) : WabtOpcodeInfo :=
  match WABT_FOREACH_OPCODE.find? (fun e => e.code == opcode) with
  | some e => ⟨some e.text, e.tr, e.t1, e.t2, e.m⟩
  | none => zeroOpcodeInfo

/-- `wabt_get_opcode_name` (lines 509-513).  The C accessor asserts
`opcode < WABT_NUM_OPCODES` before indexing the array; the assertion firing
is embedded as `none`, a passing assertion as `some` of the indexed field. -/
def wabt_get_opcode_name (opcode : Nat) : Option (Option String) :=
  if opcode < WABT_NUM_OPCODES then some (g_wabt_opcode_info opcode).name else none

/-- `wabt_get_opcode_result_type` (lines 515-519), assertion embedded as in
`wabt_get_opcode_name`. -/
def wabt_get_opcode_result_type (opcode : Nat) : Option WabtType :=
  if opcode < WABT_NUM_OPCODES then some (g_wabt_opcode_info opcode).result_type else none

/-- `wabt_get_opcode_param_type_1` (lines 521-525), assertion embedded as in
`wabt_get_opcode_name`. -/
def wabt_get_opcode_param_type_1 (opcode : Nat) : Option WabtType :=
  if opcode < WABT_NUM_OPCODES then some (g_wabt_opcode_info opcode).param1_type else none

/-- `wabt_get_opcode_param_type_2` (lines 527-531), assertion embedded as in
`wabt_get_opcode_name`. -/
def wabt_get_opcode_param_type_2 (opcode : Nat) : Option WabtType :=
  if opcode < WABT_NUM_OPCODES then some (g_wabt_opcode_info opcode).param2_type else none

/-- `wabt_get_opcode_memory_size` (lines 533-537), assertion embedded as in
`wabt_get_opcode_name`. -/
def wabt_get_opcode_memory_size (opcode : Nat) : Option Nat :=
  if opcode < WABT_NUM_OPCODES then some (g_wabt_opcode_info opcode).memory_size else none

/-- `WABT_USE_NATURAL_ALIGNMENT` (line 214): the `uint32_t` sentinel
`0xFFFFFFFF` meaning "use the opcode's natural alignment". -/
def WABT_USE_NATURAL_ALIGNMENT : Nat := 0xFFFFFFFF

/-- Modelled from the spec: the body of `wabt_is_naturally_aligned` is not
under `src/`; only its declaration and contract comment are (lines 471-473):
"return 1 if `alignment` matches the alignment of `opcode`, or if
`alignment` is `WABT_USE_NATURAL_ALIGNMENT`".  The alignment of an opcode is
its natural alignment, which for every table row equals the row's memory
size (all widths are 1, 2, 4 or 8, already powers of two). -/
def wabt_is_naturally_aligned (opcode alignment : Nat) : Bool :=
  alignment == WABT_USE_NATURAL_ALIGNMENT ||
    alignment == (g_wabt_opcode_info opcode).memory_size

/-- Modelled from the spec: the body of `wabt_get_opcode_alignment` is not
under `src/`; only its declaration and contract comment are (lines 475-477):
"if `alignment` is `WABT_USE_NATURAL_ALIGNMENT`, return the alignment of
`opcode`, else return `alignment`". -/
def wabt_get_opcode_alignment (opcode alignment : Nat) : Nat :=
  if alignment == WABT_USE_NATURAL_ALIGNMENT then
    (g_wabt_opcode_info opcode).memory_size
  else
    alignment

/-- `struct WabtStringSlice` (lines 118-121).  `start` is the byte sequence
the `const char*` gives access to (the rest of the caller's buffer), so an
embedded `NUL` is an explicit `0` byte; `length` is the slice's length
field, which need not relate to the content of `start`. -/
structure WabtStringSlice where
  start : List Nat
  length : Nat
deriving DecidableEq, Repr

/-- The `real_len` loop of `wabt_strndup` (lines 451-456): count bytes of
`s` while fewer than `len` have been counted and the current byte is not
`NUL`. -/
def strndupScan : List Nat → Nat → Nat
  | _, 0 => 0
  | [], _ + 1 => 0
  | b :: rest, n + 1 => if b = 0 then 0 else strndupScan rest n + 1

/-- `wabt_strndup` (lines 450-462): allocate `real_len + 1` bytes, copy the
first `real_len` bytes of `s`, and `NUL`-terminate.  The returned list is
the content of the newly allocated buffer. -/
def wabt_strndup (s : List Nat) (len : Nat) : List Nat :=
  s.take (strndupScan s len) ++ [0]

/-- `wabt_dup_string_slice` (lines 464-469): duplicate the backing bytes
with `wabt_strndup` and keep the original `length` field. -/
def wabt_dup_string_slice (str : WabtStringSlice) : WabtStringSlice :=
  { start := wabt_strndup str.start str.length, length := str.length }

/-- `struct WabtLocation` (lines 123-128): filename and 1-based line and
column range of a diagnostic. -/
structure WabtLocation where
  filename : String
  line : Int
  first_column : Int
  last_column : Int
deriving DecidableEq, Repr

/-- One diagnostic delivered to the `WabtSourceErrorHandler` callback
(lines 130-142): a location and an error message. -/
structure WabtDiagnostic where
  loc : WabtLocation
  message : String
deriving DecidableEq, Repr

/-- Modelled from the spec: the body of `wabt_parse_ast` is not under
`src/`; only its declaration is (lines 26-28).  Per the spec (§4.4, §7) the
pass walks the script's top-level commands in source order; each command's
parse reports zero or more diagnostics through the supplied handler,
synchronously and in source order, recovering per command.  A command is
abstracted as the list of diagnostics its parse reports.  The pass returns
the full source-order diagnostic trace together with the result, computed
after the whole pass: `WABT_OK` exactly when the trace is empty, `WABT_ERROR`
otherwise. -/
def wabt_parse_ast (commandDiags : List (List WabtDiagnostic)) :
    List WabtDiagnostic × WabtResult :=
  let reported := commandDiags.flatten
  (reported, if reported.isEmpty then .WABT_OK else .WABT_ERROR)

/-- A label pushed on the parser's label stack: its `WabtLabelType` kind
(lines 109-116) and optional `$name`. -/
structure WabtLabel where
  label_type : WabtLabelType
  name : Option String
deriving DecidableEq, Repr

/-- A parser label stack: head is the innermost currently open label. -/
abbrev LabelStack := List WabtLabel

/-- Modelled from the spec: the parser's branch-target resolution
(`wabt_parse_ast`'s body is not under `src/`).  Per the spec (§4.4) a
non-negative relative depth `d` denotes the `d`-th innermost currently open
label, and a depth that is not less than the number of open labels is a
ResolutionError, embedded as `none`. -/
def resolve_br_depth (stack : LabelStack) (d : Nat) : Option WabtLabel :=
  stack[d]?

/-- Modelled from the spec: name resolution of a branch target
(`wabt_parse_ast`'s body is not under `src/`).  Per the spec (§4.4) it
walks the label stack from innermost outward and binds to the first label
carrying that name, returning its depth; no enclosing match is a
ResolutionError, embedded as `none`. -/
def resolve_br_name (stack : LabelStack) (n : String) : Option Nat :=
  match stack with
  | [] => none
  | l :: rest =>
      if l.name = some n then some 0
      else (resolve_br_name rest n).map (· + 1)

/-- `charsStartWith hay needle`: `needle` is an initial segment of `hay`. -/
def charsStartWith : List Char → List Char → Bool
  | _, [] => true
  | [], _ :: _ => false
  | a :: as, b :: bs => a == b && charsStartWith as bs

/-- `charsContain hay needle`: `needle` occurs contiguously inside `hay`. -/
def charsContain : List Char → List Char → Bool
  | [], needle => needle.isEmpty
  | a :: as, needle => charsStartWith (a :: as) needle || charsContain as needle

/-- A mnemonic denotes a memory load or store: its text contains `load` or
`store` (`i32.load`, `i64.store32`, ... — but not `current_memory` or
`grow_memory`). -/
def hasLoadStoreText (t : String) : Bool :=
  charsContain t.data "load".data || charsContain t.data "store".data

/-! ## Helper lemmas -/

theorem opcode_entry_m_le_eight : ∀ e ∈ WABT_FOREACH_OPCODE, e.m ≤ 8 := by decide

theorem opcode_info_memory_size_le (op : Nat) :
    (g_wabt_opcode_info op).memory_size ≤ 8 := by
  unfold g_wabt_opcode_info
  cases hf : WABT_FOREACH_OPCODE.find? (fun e => e.code == op) with
  | none => simp [zeroOpcodeInfo]
  | some e => exact opcode_entry_m_le_eight e (List.mem_of_find?_eq_some hf)

theorem strndupScan_le_of_nul (s : List Nat) :
    ∀ (len i : Nat), s[i]? = some 0 → i < len → strndupScan s len ≤ i := by
  induction s with
  | nil => intro len i hi _; simp at hi
  | cons b rest ih =>
    intro len i hi hil
    cases len with
    | zero => exact absurd hil (Nat.not_lt_zero i)
    | succ n =>
      cases i with
      | zero =>
        have hb : b = 0 := by simpa using hi
        simp [strndupScan, hb]
      | succ j =>
        by_cases hb : b = 0
        · simp [strndupScan, hb]
        · have hj : rest[j]? = some 0 := by simpa using hi
          have := ih n j hj (Nat.lt_of_succ_lt_succ hil)
          simp only [strndupScan, hb, if_false]
          omega

theorem strndupScan_eq_of_no_nul (s : List Nat) :
    ∀ len : Nat, (∀ b ∈ s.take len, b ≠ 0) → len ≤ s.length →
      strndupScan s len = len := by
  induction s with
  | nil =>
    intro len _ hl
    have : len = 0 := Nat.le_zero.mp (by simpa using hl)
    simp [this, strndupScan]
  | cons b rest ih =>
    intro len hnz hl
    cases len with
    | zero => simp [strndupScan]
    | succ n =>
      have hb : b ≠ 0 := hnz b (by simp)
      have hrest : ∀ x ∈ rest.take n, x ≠ 0 := by
        intro x hx
        exact hnz x (by simpa using List.mem_cons_of_mem b hx)
      have := ih n hrest (Nat.le_of_succ_le_succ (by simpa using hl))
      simp [strndupScan, hb, this]

theorem strndupScan_eq_min (s : List Nat) :
    ∀ len : Nat, strndupScan s len = min len (s.findIdx (fun b => b == 0)) := by
  induction s with
  | nil => intro len; cases len <;> simp [strndupScan, List.findIdx_nil]
  | cons b rest ih =>
    intro len
    cases len with
    | zero => simp [strndupScan]
    | succ n =>
      by_cases hb : b = 0
      · simp [strndupScan, hb, List.findIdx_cons]
      · have hb' : (b == 0) = false := by simpa using hb
        simp [strndupScan, hb, List.findIdx_cons, hb', cond, ih n,
          Nat.succ_min_succ]

/-! ## Claim theorems -/

/-- C1: `wabt_parse_ast` returns `WABT_OK` exactly when zero diagnostics
were reported through the handler during the whole pass (equivalently, when
every top-level command reported none); the result is always one of the two
definite values `WABT_OK`/`WABT_ERROR`, and it is computed from the complete
source-order diagnostic trace, so every reporter invocation precedes it. -/
theorem parse_ast_result_ok_iff_no_diagnostics :
    ∀ commandDiags : List (List WabtDiagnostic),
      ((wabt_parse_ast commandDiags).2 = .WABT_OK ↔
        (wabt_parse_ast commandDiags).1 = []) ∧
      ((wabt_parse_ast commandDiags).2 = .WABT_OK ∨
        (wabt_parse_ast commandDiags).2 = .WABT_ERROR) ∧
      ((wabt_parse_ast commandDiags).2 = .WABT_OK ↔
        ∀ d ∈ commandDiags, d = []) := by
  intro cds
  unfold wabt_parse_ast
  by_cases h : cds.flatten.isEmpty <;>
    simp_all [List.isEmpty_iff, List.flatten_eq_nil_iff]
  tauto

/-- C2 counterexample: the claim says an explicit alignment that is a power
of two not exceeding the natural alignment is accepted, in particular
`i32.load` (opcode `0x28`, natural alignment 4) with explicit alignment 2.
The code's contract accepts only the exact natural alignment or the
sentinel, so alignment 2 is rejected. -/
theorem natural_alignment_claim_counterexample :
    wabt_is_naturally_aligned 0x28 2 = false ∧
    (g_wabt_opcode_info 0x28).memory_size = 4 ∧ (2 : Nat) < 4 := by decide

/-- C2 amended: an explicit alignment immediate is accepted iff it equals
the opcode's natural alignment or is the use-natural sentinel; `i32.load`
with explicit alignment 4 is accepted, with 2 or 8 it is rejected, and the
sentinel is accepted and resolves to the natural alignment 4. -/
theorem is_naturally_aligned_iff_equal_or_sentinel :
    (∀ op a : Nat, wabt_is_naturally_aligned op a = true ↔
        (a = WABT_USE_NATURAL_ALIGNMENT ∨
          a = (g_wabt_opcode_info op).memory_size)) ∧
    wabt_is_naturally_aligned 0x28 4 = true ∧
    wabt_is_naturally_aligned 0x28 2 = false ∧
    wabt_is_naturally_aligned 0x28 8 = false ∧
    wabt_is_naturally_aligned 0x28 WABT_USE_NATURAL_ALIGNMENT = true ∧
    wabt_get_opcode_alignment 0x28 WABT_USE_NATURAL_ALIGNMENT = 4 := by
  refine ⟨fun op a => ?_, by decide, by decide, by decide, by decide, by decide⟩
  simp [wabt_is_naturally_aligned]

/-- C4 counterexample: the claim says the accessors' assertion
`opcode < WABT_NUM_OPCODES` never fires for any byte value 0..255, but at
byte `0xc0 = 192 = WABT_NUM_OPCODES` it fires (embedded as `none`). -/
theorem opcode_accessor_assert_counterexample :
    (0xc0 : Nat) < 256 ∧ wabt_get_opcode_name 0xc0 = none ∧
      wabt_get_opcode_memory_size 0xc0 = none := by decide

/-- C4 amended: every accessor's assertion passes exactly for opcode values
below `WABT_NUM_OPCODES = 192` (so for bytes `0xc0`..`0xff` it fires), and
an unassigned code below that bound yields the zero-initialized record
(`name = NULL`). -/
theorem opcode_accessors_defined_iff_lt_num_opcodes :
    WABT_NUM_OPCODES = 192 ∧
    (∀ b : Nat,
      ((wabt_get_opcode_name b).isSome ↔ b < WABT_NUM_OPCODES) ∧
      ((wabt_get_opcode_result_type b).isSome ↔ b < WABT_NUM_OPCODES) ∧
      ((wabt_get_opcode_param_type_1 b).isSome ↔ b < WABT_NUM_OPCODES) ∧
      ((wabt_get_opcode_param_type_2 b).isSome ↔ b < WABT_NUM_OPCODES) ∧
      ((wabt_get_opcode_memory_size b).isSome ↔ b < WABT_NUM_OPCODES)) ∧
    (∀ b : Nat, b < WABT_NUM_OPCODES →
      (∀ e ∈ WABT_FOREACH_OPCODE, e.code ≠ b) →
      wabt_get_opcode_name b = some none) := by
  refine ⟨by decide, ?_, ?_⟩
  · intro b
    by_cases h : b < WABT_NUM_OPCODES <;>
      simp [wabt_get_opcode_name, wabt_get_opcode_result_type,
        wabt_get_opcode_param_type_1, wabt_get_opcode_param_type_2,
        wabt_get_opcode_memory_size, h]
  · intro b hb hun
    have hf : WABT_FOREACH_OPCODE.find? (fun e => e.code == b) = none := by
      rw [List.find?_eq_none]
      intro e he
      simpa using hun e he
    simp [wabt_get_opcode_name, hb, g_wabt_opcode_info, hf, zeroOpcodeInfo]

/-- C4 witness: byte `0x06` is below `WABT_NUM_OPCODES` but unassigned, and
the lookup returns the absent record `name = NULL`. -/
theorem opcode_accessors_defined_iff_lt_num_opcodes_witness :
    wabt_get_opcode_name 0x06 = some none :=
  opcode_accessors_defined_iff_lt_num_opcodes.2.2 0x06 (by decide) (by decide)

/-- C6: `wabt_get_opcode_alignment` returns the opcode's natural alignment
when the requested value is the use-natural sentinel, and returns every
other requested value unchanged, performing no validation. -/
theorem get_opcode_alignment_spec :
    (∀ op : Nat, wabt_get_opcode_alignment op WABT_USE_NATURAL_ALIGNMENT =
        (g_wabt_opcode_info op).memory_size) ∧
    (∀ op a : Nat, a ≠ WABT_USE_NATURAL_ALIGNMENT →
      wabt_get_opcode_alignment op a = a) := by
  refine ⟨fun op => by simp [wabt_get_opcode_alignment], fun op a ha => ?_⟩
  have hb : (a == WABT_USE_NATURAL_ALIGNMENT) = false := by simpa using ha
  simp [wabt_get_opcode_alignment, hb]

/-- C6 witness: requesting alignment 2 for `i32.load` (not the sentinel)
returns 2 unchanged. -/
theorem get_opcode_alignment_spec_witness :
    wabt_get_opcode_alignment 0x28 2 = 2 :=
  get_opcode_alignment_spec.2 0x28 2 (by decide)

/-- C10: a requested alignment of `0xFFFFFFFF` is the use-natural sentinel
itself (`WABT_USE_NATURAL_ALIGNMENT = 0xFFFFFFFF`), so
`wabt_get_opcode_alignment` maps it to the natural alignment and
`wabt_is_naturally_aligned` always accepts it; consequently no `uint32_t`
request can make `wabt_get_opcode_alignment` produce the literal value
`0xFFFFFFFF`. -/
theorem alignment_sentinel_collision :
    WABT_USE_NATURAL_ALIGNMENT = 0xFFFFFFFF ∧
    (∀ op : Nat,
      wabt_get_opcode_alignment op 0xFFFFFFFF =
        (g_wabt_opcode_info op).memory_size ∧
      wabt_is_naturally_aligned op 0xFFFFFFFF = true) ∧
    (∀ op a : Nat, a < 2 ^ 32 →
      wabt_get_opcode_alignment op a ≠ 0xFFFFFFFF) := by
  refine ⟨rfl, fun op =>
    ⟨by simp [wabt_get_opcode_alignment, WABT_USE_NATURAL_ALIGNMENT],
     by simp [wabt_is_naturally_aligned, WABT_USE_NATURAL_ALIGNMENT]⟩,
    fun op a ha => ?_⟩
  by_cases h : a = 0xFFFFFFFF
  · subst h
    have h8 := opcode_info_memory_size_le op
    simp only [wabt_get_opcode_alignment, WABT_USE_NATURAL_ALIGNMENT]
    norm_num
    omega
  · have hb : (a == WABT_USE_NATURAL_ALIGNMENT) = false := by
      simpa [WABT_USE_NATURAL_ALIGNMENT] using h
    simp [wabt_get_opcode_alignment, hb, h]

/-- C10 witness: a concrete non-sentinel request (alignment 4 for
`i32.load`) does not produce the literal `0xFFFFFFFF`. -/
theorem alignment_sentinel_collision_witness :
    wabt_get_opcode_alignment 0x28 4 ≠ 0xFFFFFFFF :=
  alignment_sentinel_collision.2.2 0x28 4 (by decide)

/-- C5: for every row of the opcode table, looking up the row's code yields
the row's canonical mnemonic text as the name, the row's memory size, and
that memory size is positive exactly when the mnemonic denotes a memory
load or store; in particular `current_memory` (`0x3f`) and `grow_memory`
(`0x40`) have memory size 0. -/
theorem opcode_table_names_and_memsize :
    (∀ e ∈ WABT_FOREACH_OPCODE,
      wabt_get_opcode_name e.code = some (some e.text) ∧
      wabt_get_opcode_memory_size e.code = some e.m ∧
      (0 < e.m ↔ hasLoadStoreText e.text = true)) ∧
    wabt_get_opcode_memory_size 0x3f = some 0 ∧
    wabt_get_opcode_memory_size 0x40 = some 0 :=
  ⟨by decide, by decide, by decide⟩

/-- C5 witness: the `i32.load` row (`0x28`) looks up to the mnemonic
`"i32.load"` and memory size 4. -/
theorem opcode_table_names_and_memsize_witness :
    wabt_get_opcode_name 0x28 = some (some "i32.load") ∧
    wabt_get_opcode_memory_size 0x28 = some 4 := by
  have h := opcode_table_names_and_memsize.1
    (V .I32 .I32 .VOID 4 0x28 "i32.load") (by decide)
  exact ⟨h.1, h.2.1⟩

/-- C7 counterexample: the claim says every value-type tag, `any` included,
is a small negative integer distinct from every assigned opcode code; but
`WABT_TYPE_ANY = 0` is not negative and coincides with the opcode code
`0x00` (`unreachable`). -/
theorem type_any_tag_counterexample :
    WabtType.ANY.val = 0 ∧ ¬ WabtType.ANY.val < 0 ∧
    ∃ e ∈ WABT_FOREACH_OPCODE, (e.code : Int) = WabtType.ANY.val := by decide

/-- C7 amended: the type set is exactly {i32, i64, f32, f64, anyfunc, func,
void, any} with pairwise distinct tag values; every tag except `any` is a
small negative integer distinct from every assigned opcode code; `any`,
which exists only for type inference and not for encoding, has the
non-negative tag 0. -/
theorem type_tags_negative_and_distinct :
    (∀ t : WabtType, t ≠ .ANY →
      t.val < 0 ∧ ∀ e ∈ WABT_FOREACH_OPCODE, t.val ≠ (e.code : Int)) ∧
    WabtType.ANY.val = 0 ∧
    (∀ t u : WabtType, t.val = u.val → t = u) ∧
    (∀ t : WabtType, t = .I32 ∨ t = .I64 ∨ t = .F32 ∨ t = .F64 ∨
      t = .ANYFUNC ∨ t = .FUNC ∨ t = .VOID ∨ t = .ANY) := by
  refine ⟨?_, rfl, by decide, by decide⟩
  intro t ht
  cases t <;> first | (exact absurd rfl ht) | decide

/-- C7 witness: the `i32` tag is negative and distinct from the opcode
codes; concretely `WABT_TYPE_I32 = -1 < 0`. -/
theorem type_tags_negative_and_distinct_witness :
    WabtType.I32.val < 0 :=
  (type_tags_negative_and_distinct.1 .I32 (by decide)).1

/-- C3: a branch target given as depth `d` resolves to the `d`-th innermost
open label and is defined exactly when `d` is below the number of open
labels; a name target binds to the first label with that name walking from
innermost outward, and is a ResolutionError (`none`) exactly when no
enclosing label carries the name.  Concretely, with the two open labels of
`(block (block (br 1)))`, depth 1 resolves to the outer block and depth 2
is a ResolutionError; in `(block $a (block (br $a)))` the name `$a`
resolves to the outer block at depth 1. -/
theorem br_resolution_correct :
    (∀ (stack : LabelStack) (d : Nat),
      (resolve_br_depth stack d).isSome ↔ d < stack.length) ∧
    (∀ (stack : LabelStack) (d : Nat) (h : d < stack.length),
      resolve_br_depth stack d = some (stack.get ⟨d, h⟩)) ∧
    (∀ (stack : LabelStack) (n : String) (i : Nat),
      resolve_br_name stack n = some i →
        (∃ l, stack[i]? = some l ∧ l.name = some n) ∧
        ∀ j, j < i → ∀ l, stack[j]? = some l → l.name ≠ some n) ∧
    (∀ (stack : LabelStack) (n : String),
      resolve_br_name stack n = none ↔ ∀ l ∈ stack, l.name ≠ some n) ∧
    resolve_br_depth [⟨.BLOCK, none⟩, ⟨.BLOCK, none⟩] 1 =
      some ⟨.BLOCK, none⟩ ∧
    resolve_br_depth [⟨.BLOCK, none⟩, ⟨.BLOCK, none⟩] 2 = none ∧
    resolve_br_name [⟨.BLOCK, none⟩, ⟨.BLOCK, some "a"⟩] "a" = some 1 := by
  refine ⟨?_, ?_, ?_, ?_, by decide, by decide, by decide⟩
  · intro stack d
    constructor
    · intro h
      obtain ⟨l, hl⟩ :=
        Option.isSome_iff_exists.mp (by simpa [resolve_br_depth] using h)
      exact (List.getElem?_eq_some_iff.mp hl).1
    · intro h
      simp [resolve_br_depth, List.getElem?_eq_getElem h]
  · intro stack d h
    simp [resolve_br_depth, List.getElem?_eq_getElem h]
  · intro stack n
    induction stack with
    | nil => intro i h; simp [resolve_br_name] at h
    | cons l rest ih =>
      intro i h
      simp only [resolve_br_name] at h
      by_cases hl : l.name = some n
      · rw [if_pos hl] at h
        have hi : i = 0 := by simpa using h.symm
        subst hi
        exact ⟨⟨l, by simp, hl⟩, fun j hj => absurd hj (Nat.not_lt_zero j)⟩
      · rw [if_neg hl] at h
        obtain ⟨j, hj, rfl⟩ := Option.map_eq_some'.mp h
        obtain ⟨⟨l0, hl0, hl0n⟩, hmin⟩ := ih j hj
        refine ⟨⟨l0, by simpa using hl0, hl0n⟩, ?_⟩
        intro k hk l1 hl1
        cases k with
        | zero =>
          have : l = l1 := by simpa using hl1
          subst this
          exact hl
        | succ k0 =>
          exact hmin k0 (Nat.lt_of_succ_lt_succ hk) l1 (by simpa using hl1)
  · intro stack n
    induction stack with
    | nil => simp [resolve_br_name]
    | cons l rest ih =>
      by_cases hl : l.name = some n <;>
        simp [resolve_br_name, hl, ih, Option.map_eq_none']

/-- C3 witness: with an anonymous inner block over a `$a`-named outer
block, depth 1 resolves to the outer block label. -/
theorem br_resolution_correct_witness :
    resolve_br_depth [(⟨.BLOCK, none⟩ : WabtLabel), ⟨.BLOCK, some "a"⟩] 1 =
      some ⟨.BLOCK, some "a"⟩ :=
  br_resolution_correct.2.1 [⟨.BLOCK, none⟩, ⟨.BLOCK, some "a"⟩] 1 (by decide)

/-- C9: duplicating a string slice keeps the `length` field, while the new
`NUL`-terminated buffer receives only the bytes up to
`min(length, position of the first NUL)`: with no embedded `NUL` the first
`length` bytes are reproduced exactly, and with an embedded `NUL` the
`length` field strictly exceeds the number of bytes copied into the new
buffer. -/
theorem dup_string_slice_spec (s : WabtStringSlice)
    (hv : s.length ≤ s.start.length) :
    ((wabt_dup_string_slice s).length = s.length) ∧
    ((wabt_dup_string_slice s).start =
      s.start.take (min s.length (s.start.findIdx (fun b => b == 0))) ++ [0]) ∧
    ((∀ b ∈ s.start.take s.length, b ≠ 0) →
      (wabt_dup_string_slice s).start = s.start.take s.length ++ [0]) ∧
    (∀ i : Nat, i < s.length → s.start[i]? = some 0 →
      (wabt_dup_string_slice s).start.length - 1 <
        (wabt_dup_string_slice s).length) := by
  refine ⟨rfl, ?_, ?_, ?_⟩
  · simp [wabt_dup_string_slice, wabt_strndup, strndupScan_eq_min]
  · intro h
    simp [wabt_dup_string_slice, wabt_strndup,
      strndupScan_eq_of_no_nul s.start s.length h hv]
  · intro i hi h0
    have hle := strndupScan_le_of_nul s.start s.length i h0 hi
    have hlt : strndupScan s.start s.length < s.length :=
      Nat.lt_of_le_of_lt hle hi
    have hks : strndupScan s.start s.length ≤ s.start.length := by
      rw [strndupScan_eq_min]
      exact le_trans (Nat.min_le_left _ _) hv
    have hlen : (wabt_dup_string_slice s).start.length =
        strndupScan s.start s.length + 1 := by
      simp [wabt_dup_string_slice, wabt_strndup, List.length_take,
        Nat.min_eq_left hks]
    have hfield : (wabt_dup_string_slice s).length = s.length := rfl
    rw [hlen, hfield]
    omega

/-- C9 witness: the slice over bytes `[104, 0, 105]` with length field 3
has an embedded `NUL` at index 1, so only 1 byte is copied while the
duplicated slice's length field stays 3. -/
theorem dup_string_slice_spec_witness :
    (wabt_dup_string_slice ⟨[104, 0, 105], 3⟩).start.length - 1 < 3 :=
  (dup_string_slice_spec ⟨[104, 0, 105], 3⟩ (by decide)).2.2.2 1
    (by decide) (by decide)

end Wabt
